import Mathlib

/-!
Verification of the FitSphere password-reset OTP functions
(`src/send_otp/index.js`, `src/verify_otp/index.js`).

The two Appwrite handlers are embedded shallowly: every external call
(user lookup, document fetch, document write, password update, mail
delivery) is an `Except`-valued outcome supplied by an environment, and
each handler returns its JSON response together with the trace of
external calls it performed.

The TOTP engine is the `otplib` dependency configured with
`digits = 6`, `step = 600`, `window = 0`.
-/

namespace FitSphere

/-! ## TOTP engine

Modelled from the spec: the TOTP Engine (§4.1) lives in the external
`otplib` dependency, not among the sources of this repository.  Per the spec it
derives an HMAC-based one-time password (RFC 4226 HOTP over HMAC-SHA1,
which is what the authenticator of `otplib` computes) over the counter
`floor(timestamp / 600)`, truncated to exactly 6 decimal digits and
zero-padded; verification with `window = 0` recomputes the code for the
current window and compares for exact equality; a malformed (non-base32)
secret signals an error instead of producing a code. -/

/-- Truncation to a 32-bit word. -/
def w32 (n : Nat) : Nat := n % 4294967296

/-- Left-rotation of a 32-bit word by `s` bits. -/
def rotl (s n : Nat) : Nat :=
  w32 (Nat.lor (Nat.shiftLeft n s) (Nat.shiftRight n (32 - s)))

/-- Big-endian byte encoding of `n`, exactly `len` bytes. -/
def beBytes : Nat → Nat → List Nat
  | 0, _ => []
  | len + 1, n => beBytes len (n / 256) ++ [n % 256]

/-- Four big-endian bytes combined into a 32-bit word. -/
def word (a b c d : Nat) : Nat := ((a * 256 + b) * 256 + c) * 256 + d

/-- Group a byte list into big-endian 32-bit words. -/
def toWords : List Nat → List Nat
  | a :: b :: c :: d :: rest => word a b c d :: toWords rest
  | _ => []

/-- SHA-1 padding: append `0x80`, zero bytes to 56 mod 64, and the
64-bit big-endian bit length. -/
def shaPad (msg : List Nat) : List Nat :=
  let l := msg.length
  let z := (56 + 64 - (l + 1) % 64) % 64
  msg ++ [128] ++ List.replicate z 0 ++ beBytes 8 (l * 8)

/-- Split into 64-byte blocks; `fuel` is the number of blocks. -/
def chunks64 : Nat → List Nat → List (List Nat)
  | 0, _ => []
  | n + 1, bytes => bytes.take 64 :: chunks64 n (bytes.drop 64)

/-- SHA-1 message-schedule extension; `acc` holds the words produced so
far, most recent first. -/
def extendWords : Nat → List Nat → List Nat
  | 0, acc => acc
  | n + 1, acc =>
      let w := rotl 1 (Nat.xor (Nat.xor (acc.getD 2 0) (acc.getD 7 0))
        (Nat.xor (acc.getD 13 0) (acc.getD 15 0)))
      extendWords n (w :: acc)

/-- The 80-word schedule of one 64-byte block. -/
def schedule (block : List Nat) : List Nat :=
  (extendWords 64 (toWords block).reverse).reverse

/-- SHA-1 round function and constant for round `i`. -/
def fK (i b c d : Nat) : Nat × Nat :=
  if i < 20 then
    (Nat.lor (Nat.land b c) (Nat.land (Nat.xor b 4294967295) d), 1518500249)
  else if i < 40 then (Nat.xor (Nat.xor b c) d, 1859775393)
  else if i < 60 then
    (Nat.lor (Nat.lor (Nat.land b c) (Nat.land b d)) (Nat.land c d), 2400959708)
  else (Nat.xor (Nat.xor b c) d, 3395469782)

/-- One SHA-1 round. -/
def sha1Round (st : Nat × Nat × Nat × Nat × Nat) (iw : Nat × Nat) :
    Nat × Nat × Nat × Nat × Nat :=
  let (a, b, c, d, e) := st
  let (i, w) := iw
  let fk := fK i b c d
  let temp := w32 (rotl 5 a + fk.1 + e + fk.2 + w)
  (temp, a, rotl 30 b, c, d)

/-- Process one 64-byte block, updating the 5-word chaining state. -/
def processBlock (h : List Nat) (block : List Nat) : List Nat :=
  let ws := schedule block
  let h0 := h.getD 0 0
  let h1 := h.getD 1 0
  let h2 := h.getD 2 0
  let h3 := h.getD 3 0
  let h4 := h.getD 4 0
  let r := ((List.range 80).zip ws).foldl sha1Round (h0, h1, h2, h3, h4)
  [w32 (h0 + r.1), w32 (h1 + r.2.1), w32 (h2 + r.2.2.1),
   w32 (h3 + r.2.2.2.1), w32 (h4 + r.2.2.2.2)]

/-- SHA-1 digest (20 bytes) of a byte list. -/
def sha1 (msg : List Nat) : List Nat :=
  let padded := shaPad msg
  let hs := (chunks64 (padded.length / 64) padded).foldl processBlock
    [1732584193, 4023233417, 2562383102, 271733878, 3285377520]
  (hs.map (beBytes 4)).flatten

/-- HMAC-SHA1 of `msg` under `key` (RFC 2104, block size 64). -/
def hmacSha1 (key msg : List Nat) : List Nat :=
  let key1 := if key.length > 64 then sha1 key else key
  let kpad := key1 ++ List.replicate (64 - key1.length) 0
  let ipadded := kpad.map (Nat.xor 54)
  let opadded := kpad.map (Nat.xor 92)
  sha1 (opadded ++ sha1 (ipadded ++ msg))

/-- RFC 4226 dynamic truncation of a 20-byte digest to a 31-bit value. -/
def dynamicTruncate (digest : List Nat) : Nat :=
  let offset := Nat.land (digest.getD 19 0) 15
  Nat.land (digest.getD offset 0) 127 * 16777216 +
    digest.getD (offset + 1) 0 * 65536 +
    digest.getD (offset + 2) 0 * 256 + digest.getD (offset + 3) 0

/-- Zero-pad a number below 10^6 to exactly 6 decimal digits. -/
def padLeft6 (n : Nat) : String :=
  let s := toString n
  String.mk (List.replicate (6 - s.length) '0') ++ s

/-- RFC 4226 HOTP: 6-digit code for `key` at `counter`. -/
def hotp (key : List Nat) (counter : Nat) : String :=
  padLeft6 (dynamicTruncate (hmacSha1 key (beBytes 8 counter)) % 1000000)

/-- Value of one base32 character (RFC 4648 alphabet, case-insensitive). -/
def b32Val (c : Char) : Option Nat :=
  let u := c.toUpper
  if 'A' ≤ u ∧ u ≤ 'Z' then some (u.toNat - 65)
  else if '2' ≤ u ∧ u ≤ '7' then some (u.toNat - 24)
  else none

/-- Base32 decoding of a character list: 5 bits per character
accumulated into bytes; `=` padding is skipped; any other character
outside the alphabet fails (the engine-level fault of §4.1). -/
def b32DecodeAux : List Char → Nat → Nat → Option (List Nat)
  | [], _, _ => some []
  | c :: rest, acc, bits =>
    if c = '=' then b32DecodeAux rest acc bits
    else
      match b32Val c with
      | none => none
      | some v =>
        let acc2 := acc * 32 + v
        let bits2 := bits + 5
        if 8 ≤ bits2 then
          (b32DecodeAux rest (acc2 % 2 ^ (bits2 - 8)) (bits2 - 8)).map
            (fun out => acc2 / 2 ^ (bits2 - 8) :: out)
        else b32DecodeAux rest acc2 bits2

/-- Decode a base32 secret string to key bytes. -/
def b32Decode (s : String) : Option (List Nat) := b32DecodeAux s.data 0 0

/-- `OTP_EXPIRY_MINUTES` of both handlers. -/
def OTP_EXPIRY_MINUTES : Nat := 10

/-- `OTP_STEP_SECONDS` of both handlers: the TOTP step. -/
def OTP_STEP_SECONDS : Nat := OTP_EXPIRY_MINUTES * 60

/-- The TOTP counter for a Unix timestamp (seconds): the time window. -/
def totpCounter (t : Nat) : Nat := t / OTP_STEP_SECONDS

/-- `authenticator.generate secret` at time `t` under the options both handlers
set (`digits = 6`, `step = 600`): `none` models the throw on a
malformed secret. -/
def deriveTotp (secret : String) (t : Nat) : Option String :=
  (b32Decode secret).map (fun key => hotp key (totpCounter t))

/-- `authenticator.verify { token, secret }` at time `t` with
`window = 0`: recompute the code of the current window and compare exactly;
`none` models the throw on a malformed secret. -/
def matchesTotp (secret token : String) (t : Nat) : Option Bool :=
  (deriveTotp secret t).map (fun code => code == token)

/-! ## Shallow embedding of the two Appwrite handlers -/

/-- JavaScript falsiness of an optional string field: `undefined`/`null`
(absent) and the empty string are falsy. -/
def jsFalsy : Option String → Bool
  | none => true
  | some s => s.isEmpty

/-- A request body at the `req.body` interface: absent (`JSON.parse`
receives the `'{}'` fallback), present but unparsable (`JSON.parse`
throws), or parsed to a payload. -/
inductive ReqBody (α : Type) where
  | absent
  | malformed
  | valid (payload : α)

/-- Payload of `send_otp`: the destructured `email` field. -/
structure SendPayload where
  email : Option String
deriving DecidableEq

/-- Payload of `verify_otp`: the destructured fields. -/
structure VerifyPayload where
  email : Option String
  otp : Option String
  newPassword : Option String
deriving DecidableEq

/-- `JSON.parse(req.body || '{}')` for `send_otp`: an absent body parses
to the empty object (no fields), a malformed one throws. -/
def parseSend : ReqBody SendPayload → Except Unit SendPayload
  | .absent => .ok ⟨none⟩
  | .malformed => .error ()
  | .valid p => .ok p

/-- `JSON.parse(req.body || '{}')` for `verify_otp`. -/
def parseVerify : ReqBody VerifyPayload → Except Unit VerifyPayload
  | .absent => .ok ⟨none, none, none⟩
  | .malformed => .error ()
  | .valid p => .ok p

/-- The JS `\s` class (ASCII part), for the email regular expression. -/
def isSpaceChar (c : Char) : Bool :=
  c = ' ' || c = '\t' || c = '\n' || c = '\r' ||
    c = Char.ofNat 11 || c = Char.ofNat 12

/-- One character of the `[^\s@]` class. -/
def emailAtomChar (c : Char) : Bool := !isSpaceChar c && c ≠ '@'

/-- The test `/^[^\s@]+@[^\s@]+\.[^\s@]+$/.test(email)` of `send_otp`:
the string decomposes as `A@B.C` with `A`, `B`, `C` nonempty sequences
of `[^\s@]` characters — equivalently, exactly one `@`, nonempty
whitespace-free parts on both of its sides, and a `.` strictly inside
the part after the `@`. -/
def emailRegexTest (s : String) : Bool :=
  let cs := s.data
  let a := cs.takeWhile (· ≠ '@')
  let b := (cs.dropWhile (· ≠ '@')).drop 1
  cs.count '@' == 1 && !a.isEmpty && a.all emailAtomChar &&
    !b.isEmpty && b.all emailAtomChar && (b.drop 1).dropLast.contains '.'

/-- The test `/^\d{6}$/.test(otp)` of `verify_otp`. -/
def isSixDigits (s : String) : Bool :=
  s.length == 6 && s.data.all Char.isDigit

/-- A user profile document: its `$id` and `passwordResetSecret`
attribute (`none` models `null`/absent). -/
structure Doc where
  id : String
  passwordResetSecret : Option String
deriving DecidableEq

/-- An external call performed by a handler, as recorded in its trace:
the user-directory lookup, the profile-document fetch, a write of the
`passwordResetSecret` attribute (`none` = clearing it), the password
update, and the OTP mail hand-off. -/
inductive Event where
  | userLookup (email : String)
  | docsFetch (uid : String)
  | secretWrite (docId : String) (value : Option String)
  | passwordUpdate (uid : String) (newPassword : String)
  | mailSend (recipient : String) (otp : String)
deriving DecidableEq

/-- Whether an event writes to the secret store. -/
def isWriteEvent : Event → Bool
  | .secretWrite _ _ => true
  | _ => false

/-- The secret-store writes in a trace. -/
def writesOf (evts : List Event) : List Event := evts.filter isWriteEvent

/-- The OTP codes handed to the mailer in a trace. -/
def sentOtps (evts : List Event) : List String :=
  evts.filterMap fun e =>
    match e with
    | .mailSend _ otp => some otp
    | _ => none

/-- The JSON response of a handler: `success` flag, HTTP status (200 when
`res.json` is called without one), `message`, and the optional
`expiresInMinutes` field of the issuance success response. -/
structure Response where
  success : Bool
  status : Nat
  message : String
  expiresInMinutes : Option Nat
deriving DecidableEq

/-- A failure response (no `expiresInMinutes` field). -/
def failResp (status : Nat) (msg : String) : Response :=
  ⟨false, status, msg, none⟩

/-- The generic 500 response of
both top-level catch blocks. -/
def unexpectedResp : Response :=
  failResp 500 "An unexpected error occurred. Please try again."

/-- Environment of one `send_otp` invocation: outcome of each external
call (`Except.error` models a throw), the secret `generateSecret()`
would produce, and the current Unix time in seconds. -/
structure SendEnv where
  body : ReqBody SendPayload
  users : Except Unit (List String)
  docs : Except Unit (List Doc)
  freshSecret : String
  writeResult : Except Unit Unit
  mailResult : Except Unit Unit
  time : Nat

/-- `send_otp` from the TOTP generation on: derive the code with
`authenticator.generate` (a throw on a malformed secret escapes to the
top-level catch), then hand it to the mailer. -/
def sendAfterSecret (env : SendEnv) (email : String) (secret : String)
    (evts : List Event) : Response × List Event :=
  match deriveTotp secret env.time with
  | none => (unexpectedResp, evts)
  | some otp =>
    match env.mailResult with
    | .error _ =>
      (failResp 500 "Failed to send OTP email. Please try again.",
        evts ++ [Event.mailSend email otp])
    | .ok _ =>
      (⟨true, 200, "OTP sent to " ++ email ++ ". Please check your inbox.",
        some OTP_EXPIRY_MINUTES⟩, evts ++ [Event.mailSend email otp])

/-- The `send_otp` handler (`src/send_otp/index.js`): parse and validate
the input, resolve the user and profile document, reuse the stored
secret or generate and persist a fresh one, derive the TOTP and mail
it.  Returns the JSON response and the trace of external calls. -/
def sendHandler (env : SendEnv) : Response × List Event :=
  match parseSend env.body with
  | .error _ => (unexpectedResp, [])
  | .ok payload =>
    if jsFalsy payload.email then (failResp 400 "Email is required", [])
    else
      let email := payload.email.getD ""
      if !emailRegexTest email then
        (failResp 400 "Invalid email format", [])
      else
        match env.users with
        | .error _ =>
          (failResp 500 "Error verifying email address",
            [Event.userLookup email])
        | .ok [] =>
          (failResp 404 "No account found with this email address",
            [Event.userLookup email])
        | .ok (uid :: _) =>
          match env.docs with
          | .error _ =>
            (failResp 500 "Error accessing user profile",
              [Event.userLookup email, Event.docsFetch uid])
          | .ok [] =>
            (failResp 404 "User profile not found",
              [Event.userLookup email, Event.docsFetch uid])
          | .ok (doc :: _) =>
            let evts := [Event.userLookup email, Event.docsFetch uid]
            if jsFalsy doc.passwordResetSecret then
              match env.writeResult with
              | .error _ =>
                (failResp 500 "Failed to generate OTP. Please try again.",
                  evts ++ [Event.secretWrite doc.id (some env.freshSecret)])
              | .ok _ =>
                sendAfterSecret env email env.freshSecret
                  (evts ++ [Event.secretWrite doc.id (some env.freshSecret)])
            else
              sendAfterSecret env email (doc.passwordResetSecret.getD "") evts

/-- Environment of one `verify_otp` invocation. -/
structure VerifyEnv where
  body : ReqBody VerifyPayload
  users : Except Unit (List String)
  docs : Except Unit (List Doc)
  pwUpdateResult : Except Unit Unit
  clearResult : Except Unit Unit
  time : Nat

/-- The `verify_otp` handler (`src/verify_otp/index.js`): parse and
validate the input, resolve the user and profile document, reject when
no reset secret is pending, verify the TOTP, update the password, and
clear the secret best-effort (a failure of the clearing write only logs;
the success response is returned regardless, which is why
`clearResult` does not influence the result). -/
def verifyHandler (env : VerifyEnv) : Response × List Event :=
  match parseVerify env.body with
  | .error _ => (unexpectedResp, [])
  | .ok p =>
    if jsFalsy p.email || jsFalsy p.otp || jsFalsy p.newPassword then
      (failResp 400 "Email, OTP, and new password are required", [])
    else
      let email := p.email.getD ""
      let otp := p.otp.getD ""
      let newPassword := p.newPassword.getD ""
      if !isSixDigits otp then
        (failResp 400 "Invalid OTP format. OTP must be 6 digits.", [])
      else if newPassword.length < 8 then
        (failResp 400 "Password must be at least 8 characters long", [])
      else
        match env.users with
        | .error _ =>
          (failResp 500 "Error verifying email address",
            [Event.userLookup email])
        | .ok [] =>
          (failResp 404 "No account found with this email address",
            [Event.userLookup email])
        | .ok (uid :: _) =>
          match env.docs with
          | .error _ =>
            (failResp 500 "Error accessing user profile",
              [Event.userLookup email, Event.docsFetch uid])
          | .ok [] =>
            (failResp 404 "User profile not found",
              [Event.userLookup email, Event.docsFetch uid])
          | .ok (doc :: _) =>
            let evts := [Event.userLookup email, Event.docsFetch uid]
            if jsFalsy doc.passwordResetSecret then
              (failResp 400 "No OTP request found. Please request a new OTP.",
                evts)
            else
              match matchesTotp (doc.passwordResetSecret.getD "") otp env.time with
              | none =>
                (failResp 400 "Invalid OTP or OTP has expired", evts)
              | some false =>
                (failResp 400
                  "Invalid OTP or OTP has expired. Please request a new OTP.",
                  evts)
              | some true =>
                match env.pwUpdateResult with
                | .error _ =>
                  (failResp 500 "Failed to update password. Please try again.",
                    evts ++ [Event.passwordUpdate uid newPassword])
                | .ok _ =>
                  (⟨true, 200,
                    "Password reset successful! You can now log in with your new password.",
                    none⟩,
                    evts ++ [Event.passwordUpdate uid newPassword,
                      Event.secretWrite doc.id none])

/-! ## Concrete instances used in witnesses -/

set_option maxRecDepth 2000000

/-- A well-formed base32 secret used in concrete instantiations: the
RFC 4226 test key in base32. -/
def secGood : String := "GEZDGNBVGY3TQOJQGEZDGNBVGY3TQOJQ"

/-- The key bytes `secGood` decodes to. -/
def keyGood : List Nat :=
  [49, 50, 51, 52, 53, 54, 55, 56, 57, 48,
   49, 50, 51, 52, 53, 54, 55, 56, 57, 48]

/-! ## Claims about the TOTP engine -/

/-- C2: for every secret `S` the engine accepts and every timestamp `T`,
the code derived from `S` at `T` verifies against `S` at the same `T`
under the configuration `digits = 6`, `step = 600`, `window = 0` used by
both handlers. -/
theorem derive_matches_roundtrip (S : String) (T : Nat) (c : String)
    (h : deriveTotp S T = some c) : matchesTotp S c T = some true := by
  simp [matchesTotp, h]

theorem derive_matches_roundtrip_witness :
    deriveTotp secGood 0 = some "755224" ∧
    matchesTotp secGood "755224" 0 = some true :=
  ⟨by decide, derive_matches_roundtrip secGood 0 "755224" (by decide)⟩

/-- C3 fails on the code: the 6-digit codes of two distinct 600-second
windows can collide, and verification is exact code comparison, so a
code derived at `T = 201600` (window 336) verifies at `T2 = 1323000`
(window 2205) for the secret `secGood`. -/
theorem cross_window_match_counterexample :
    totpCounter 201600 ≠ totpCounter 1323000 ∧
    deriveTotp secGood 201600 = some "143951" ∧
    matchesTotp secGood "143951" 1323000 = some true :=
  ⟨by decide, by decide, by decide⟩

/-- C3 amended: for timestamps `T`, `T2` in different 600-second windows
no drift window is applied — verification of the code derived at `T`
against the window of `T2` recomputes the code of the window of `T2` and
succeeds exactly when the two derived codes coincide (so it fails
whenever they differ). -/
theorem cross_window_match (S : String) (T T2 : Nat) (c c2 : String)
    (hw : totpCounter T ≠ totpCounter T2)
    (h : deriveTotp S T = some c) (h2 : deriveTotp S T2 = some c2) :
    matchesTotp S c T2 = some (c2 == c) := by
  simp [matchesTotp, h2]

theorem cross_window_match_witness :
    totpCounter 0 ≠ totpCounter 600 ∧
    deriveTotp secGood 0 = some "755224" ∧
    deriveTotp secGood 600 = some "287082" ∧
    matchesTotp secGood "755224" 600 = some ("287082" == "755224") :=
  ⟨by decide, by decide, by decide,
    cross_window_match secGood 0 600 "755224" "287082" (by decide)
      (by decide) (by decide)⟩

/-! ## Claims about the handlers -/

/-- C10: an absent request body parses as the empty JSON object and
yields the missing-field 400 of each handler, while a malformed body
throws inside the handler and yields the generic 500 failure; in every
one of these cases the trace is empty, so no external call or store
write occurs. -/
theorem absent_vs_malformed_body :
    (∀ env : SendEnv, env.body = ReqBody.absent →
      sendHandler env = (failResp 400 "Email is required", [])) ∧
    (∀ env : SendEnv, env.body = ReqBody.malformed →
      sendHandler env = (unexpectedResp, [])) ∧
    (∀ env : VerifyEnv, env.body = ReqBody.absent →
      verifyHandler env =
        (failResp 400 "Email, OTP, and new password are required", [])) ∧
    (∀ env : VerifyEnv, env.body = ReqBody.malformed →
      verifyHandler env = (unexpectedResp, [])) := by
  refine ⟨fun env h => ?_, fun env h => ?_, fun env h => ?_, fun env h => ?_⟩ <;>
    simp [sendHandler, verifyHandler, parseSend, parseVerify, h, jsFalsy]

def sendEnvAbsent : SendEnv :=
  ⟨ReqBody.absent, .ok [], .ok [], "", .ok (), .ok (), 0⟩

def sendEnvMalformed : SendEnv :=
  ⟨ReqBody.malformed, .ok [], .ok [], "", .ok (), .ok (), 0⟩

def verifyEnvAbsent : VerifyEnv :=
  ⟨ReqBody.absent, .ok [], .ok [], .ok (), .ok (), 0⟩

def verifyEnvMalformed : VerifyEnv :=
  ⟨ReqBody.malformed, .ok [], .ok [], .ok (), .ok (), 0⟩

theorem absent_vs_malformed_body_witness :
    sendHandler sendEnvAbsent = (failResp 400 "Email is required", []) ∧
    sendHandler sendEnvMalformed = (unexpectedResp, []) ∧
    verifyHandler verifyEnvAbsent =
      (failResp 400 "Email, OTP, and new password are required", []) ∧
    verifyHandler verifyEnvMalformed = (unexpectedResp, []) :=
  ⟨absent_vs_malformed_body.1 sendEnvAbsent rfl,
   absent_vs_malformed_body.2.1 sendEnvMalformed rfl,
   absent_vs_malformed_body.2.2.1 verifyEnvAbsent rfl,
   absent_vs_malformed_body.2.2.2 verifyEnvMalformed rfl⟩

/-- C8: input validation of `verify_otp` is terminal and precedes any
external call: a missing (falsy) email, code or new password yields the
missing-field 400; a present code that is not exactly 6 decimal digits
yields the bad-format 400; a new password shorter than 8 characters
yields the weak-password 400 — each with an empty trace, so no user
lookup, secret read, password update or secret write occurs, regardless
of whether the code would have verified. -/
theorem verify_validation_terminal :
    (∀ (env : VerifyEnv) (p : VerifyPayload), parseVerify env.body = .ok p →
      (jsFalsy p.email || jsFalsy p.otp || jsFalsy p.newPassword) = true →
      verifyHandler env =
        (failResp 400 "Email, OTP, and new password are required", [])) ∧
    (∀ (env : VerifyEnv) (p : VerifyPayload), parseVerify env.body = .ok p →
      (jsFalsy p.email || jsFalsy p.otp || jsFalsy p.newPassword) = false →
      isSixDigits (p.otp.getD "") = false →
      verifyHandler env =
        (failResp 400 "Invalid OTP format. OTP must be 6 digits.", [])) ∧
    (∀ (env : VerifyEnv) (p : VerifyPayload), parseVerify env.body = .ok p →
      (jsFalsy p.email || jsFalsy p.otp || jsFalsy p.newPassword) = false →
      isSixDigits (p.otp.getD "") = true →
      (p.newPassword.getD "").length < 8 →
      verifyHandler env =
        (failResp 400 "Password must be at least 8 characters long", [])) := by
  refine ⟨fun env p hp hf => ?_, fun env p hp hf hs => ?_,
    fun env p hp hf hs hl => ?_⟩
  · simp [verifyHandler, hp, hf]
  · simp [verifyHandler, hp, hf, hs]
  · simp [verifyHandler, hp, hf, hs, hl]

def verifyEnvMissingOtp : VerifyEnv :=
  ⟨ReqBody.valid ⟨some "user@example.com", none, some "NewPass123"⟩,
   .ok ["u1"], .ok [⟨"d1", some secGood⟩], .ok (), .ok (), 0⟩

def verifyEnvBadFormat : VerifyEnv :=
  ⟨ReqBody.valid ⟨some "user@example.com", some "12a456", some "NewPass123"⟩,
   .ok ["u1"], .ok [⟨"d1", some secGood⟩], .ok (), .ok (), 0⟩

def verifyEnvShortPw : VerifyEnv :=
  ⟨ReqBody.valid ⟨some "user@example.com", some "755224", some "short1"⟩,
   .ok ["u1"], .ok [⟨"d1", some secGood⟩], .ok (), .ok (), 0⟩

theorem verify_validation_terminal_witness :
    verifyHandler verifyEnvMissingOtp =
      (failResp 400 "Email, OTP, and new password are required", []) ∧
    verifyHandler verifyEnvBadFormat =
      (failResp 400 "Invalid OTP format. OTP must be 6 digits.", []) ∧
    verifyHandler verifyEnvShortPw =
      (failResp 400 "Password must be at least 8 characters long", []) :=
  ⟨verify_validation_terminal.1 verifyEnvMissingOtp _ rfl (by decide),
   verify_validation_terminal.2.1 verifyEnvBadFormat _ rfl (by decide)
     (by decide),
   verify_validation_terminal.2.2 verifyEnvShortPw _ rfl (by decide)
     (by decide) (by decide)⟩

/-- C9: an issuance request whose (valid) email matches zero directory
users returns the 404 not-found failure, and its trace contains no
secret-store write. -/
theorem send_user_not_found (env : SendEnv) (p : SendPayload) (e : String)
    (hp : parseSend env.body = .ok p) (he : p.email = some e)
    (hne : e.isEmpty = false) (hre : emailRegexTest e = true)
    (hu : env.users = .ok []) :
    sendHandler env =
      (failResp 404 "No account found with this email address",
        [Event.userLookup e]) ∧
    writesOf (sendHandler env).2 = [] := by
  have h1 : sendHandler env =
      (failResp 404 "No account found with this email address",
        [Event.userLookup e]) := by
    simp [sendHandler, hp, he, hne, hre, hu, jsFalsy]
  exact ⟨h1, by rw [h1]; rfl⟩

def sendEnvNoUser : SendEnv :=
  ⟨ReqBody.valid ⟨some "user@example.com"⟩, .ok [], .ok [], "", .ok (),
    .ok (), 0⟩

theorem send_user_not_found_witness :
    sendHandler sendEnvNoUser =
      (failResp 404 "No account found with this email address",
        [Event.userLookup "user@example.com"]) ∧
    writesOf (sendHandler sendEnvNoUser).2 = [] :=
  send_user_not_found sendEnvNoUser _ "user@example.com" rfl rfl
    (by decide) (by decide) rfl

/-- C1: when the supplied code matches the stored secret for the current
window and the password update succeeds, the handler issues the write
clearing `passwordResetSecret` (sets it to `null`), and a subsequent
verification request for that user — same code, same window — against
the now-cleared store fails with the 400 no-pending-reset client error
instead of succeeding. -/
theorem verify_success_single_use
    (env env2 : VerifyEnv) (p p2 : VerifyPayload) (e e2 o pw pw2 s : String)
    (uid uid2 : String) (us us2 : List String) (doc doc2 : Doc)
    (ds ds2 : List Doc)
    (hp : parseVerify env.body = .ok p)
    (he : p.email = some e) (hne : e.isEmpty = false)
    (ho : p.otp = some o) (hone : o.isEmpty = false)
    (hsix : isSixDigits o = true)
    (hpw : p.newPassword = some pw) (hpwne : pw.isEmpty = false)
    (hlen : ¬ pw.length < 8)
    (hu : env.users = .ok (uid :: us)) (hd : env.docs = .ok (doc :: ds))
    (hsec : doc.passwordResetSecret = some s) (hsne : s.isEmpty = false)
    (hm : matchesTotp s o env.time = some true)
    (hupd : env.pwUpdateResult = .ok ())
    (hp2 : parseVerify env2.body = .ok p2)
    (he2 : p2.email = some e2) (hne2 : e2.isEmpty = false)
    (ho2 : p2.otp = some o)
    (hpw2 : p2.newPassword = some pw2) (hpwne2 : pw2.isEmpty = false)
    (hlen2 : ¬ pw2.length < 8)
    (hu2 : env2.users = .ok (uid2 :: us2))
    (hd2 : env2.docs = .ok (doc2 :: ds2))
    (hsec2 : doc2.passwordResetSecret = none)
    (hw : totpCounter env2.time = totpCounter env.time) :
    verifyHandler env =
      (⟨true, 200,
        "Password reset successful! You can now log in with your new password.",
        none⟩,
       [Event.userLookup e, Event.docsFetch uid,
        Event.passwordUpdate uid pw, Event.secretWrite doc.id none]) ∧
    verifyHandler env2 =
      (failResp 400 "No OTP request found. Please request a new OTP.",
       [Event.userLookup e2, Event.docsFetch uid2]) := by
  constructor
  · simp [verifyHandler, hp, he, hne, ho, hone, hsix, hpw, hpwne, hlen, hu,
      hd, hsec, hsne, hm, hupd, jsFalsy]
  · simp [verifyHandler, hp2, he2, hne2, ho2, hone, hsix, hpw2, hpwne2,
      hlen2, hu2, hd2, hsec2, jsFalsy]

def verifyEnvOk : VerifyEnv :=
  ⟨ReqBody.valid ⟨some "user@example.com", some "755224", some "NewPass123"⟩,
   .ok ["u1"], .ok [⟨"d1", some secGood⟩], .ok (), .ok (), 0⟩

def verifyEnvCleared : VerifyEnv :=
  ⟨ReqBody.valid ⟨some "user@example.com", some "755224", some "NewPass123"⟩,
   .ok ["u1"], .ok [⟨"d1", none⟩], .ok (), .ok (), 0⟩

theorem verify_success_single_use_witness :
    verifyHandler verifyEnvOk =
      (⟨true, 200,
        "Password reset successful! You can now log in with your new password.",
        none⟩,
       [Event.userLookup "user@example.com", Event.docsFetch "u1",
        Event.passwordUpdate "u1" "NewPass123",
        Event.secretWrite "d1" none]) ∧
    verifyHandler verifyEnvCleared =
      (failResp 400 "No OTP request found. Please request a new OTP.",
       [Event.userLookup "user@example.com", Event.docsFetch "u1"]) :=
  verify_success_single_use verifyEnvOk verifyEnvCleared _ _
    "user@example.com" "user@example.com" "755224" "NewPass123" "NewPass123"
    secGood "u1" "u1" [] [] ⟨"d1", some secGood⟩ ⟨"d1", none⟩ [] []
    rfl rfl (by decide) rfl (by decide) (by decide) rfl (by decide)
    (by decide) rfl rfl rfl (by decide) (by decide) rfl
    rfl rfl (by decide) rfl rfl (by decide) (by decide) rfl rfl rfl rfl

/-- C5: when the code matches but the external password update fails,
the handler returns the 500 failure and its trace contains no
secret-store write — the stored secret is left untouched, so a retry
with the same still-valid code within the window remains possible. -/
theorem verify_update_failure_preserves_secret
    (env : VerifyEnv) (p : VerifyPayload) (e o pw s : String)
    (uid : String) (us : List String) (doc : Doc) (ds : List Doc)
    (hp : parseVerify env.body = .ok p)
    (he : p.email = some e) (hne : e.isEmpty = false)
    (ho : p.otp = some o) (hone : o.isEmpty = false)
    (hsix : isSixDigits o = true)
    (hpw : p.newPassword = some pw) (hpwne : pw.isEmpty = false)
    (hlen : ¬ pw.length < 8)
    (hu : env.users = .ok (uid :: us)) (hd : env.docs = .ok (doc :: ds))
    (hsec : doc.passwordResetSecret = some s) (hsne : s.isEmpty = false)
    (hm : matchesTotp s o env.time = some true)
    (hupd : env.pwUpdateResult = .error ()) :
    verifyHandler env =
      (failResp 500 "Failed to update password. Please try again.",
       [Event.userLookup e, Event.docsFetch uid,
        Event.passwordUpdate uid pw]) ∧
    writesOf (verifyHandler env).2 = [] := by
  have h1 : verifyHandler env =
      (failResp 500 "Failed to update password. Please try again.",
       [Event.userLookup e, Event.docsFetch uid,
        Event.passwordUpdate uid pw]) := by
    simp [verifyHandler, hp, he, hne, ho, hone, hsix, hpw, hpwne, hlen, hu,
      hd, hsec, hsne, hm, hupd, jsFalsy]
  exact ⟨h1, by rw [h1]; rfl⟩

def verifyEnvUpdFail : VerifyEnv :=
  ⟨ReqBody.valid ⟨some "user@example.com", some "755224", some "NewPass123"⟩,
   .ok ["u1"], .ok [⟨"d1", some secGood⟩], .error (), .ok (), 0⟩

theorem verify_update_failure_preserves_secret_witness :
    verifyHandler verifyEnvUpdFail =
      (failResp 500 "Failed to update password. Please try again.",
       [Event.userLookup "user@example.com", Event.docsFetch "u1",
        Event.passwordUpdate "u1" "NewPass123"]) ∧
    writesOf (verifyHandler verifyEnvUpdFail).2 = [] :=
  verify_update_failure_preserves_secret verifyEnvUpdFail _
    "user@example.com" "755224" "NewPass123" secGood "u1" []
    ⟨"d1", some secGood⟩ []
    rfl rfl (by decide) rfl (by decide) (by decide) rfl (by decide)
    (by decide) rfl rfl rfl (by decide) (by decide) rfl

/-- C6: when the code matches and the password update succeeds, the
handler returns the success response even when the subsequent clearing
write fails — the clearing outcome never changes the reported result. -/
theorem verify_clear_failure_still_success
    (env : VerifyEnv) (p : VerifyPayload) (e o pw s : String)
    (uid : String) (us : List String) (doc : Doc) (ds : List Doc)
    (hp : parseVerify env.body = .ok p)
    (he : p.email = some e) (hne : e.isEmpty = false)
    (ho : p.otp = some o) (hone : o.isEmpty = false)
    (hsix : isSixDigits o = true)
    (hpw : p.newPassword = some pw) (hpwne : pw.isEmpty = false)
    (hlen : ¬ pw.length < 8)
    (hu : env.users = .ok (uid :: us)) (hd : env.docs = .ok (doc :: ds))
    (hsec : doc.passwordResetSecret = some s) (hsne : s.isEmpty = false)
    (hm : matchesTotp s o env.time = some true)
    (hupd : env.pwUpdateResult = .ok ())
    (hclear : env.clearResult = .error ()) :
    (verifyHandler env).1 =
      ⟨true, 200,
        "Password reset successful! You can now log in with your new password.",
        none⟩ := by
  simp [verifyHandler, hp, he, hne, ho, hone, hsix, hpw, hpwne, hlen, hu,
    hd, hsec, hsne, hm, hupd, jsFalsy]

def verifyEnvClearFail : VerifyEnv :=
  ⟨ReqBody.valid ⟨some "user@example.com", some "755224", some "NewPass123"⟩,
   .ok ["u1"], .ok [⟨"d1", some secGood⟩], .ok (), .error (), 0⟩

theorem verify_clear_failure_still_success_witness :
    (verifyHandler verifyEnvClearFail).1 =
      ⟨true, 200,
        "Password reset successful! You can now log in with your new password.",
        none⟩ :=
  verify_clear_failure_still_success verifyEnvClearFail _
    "user@example.com" "755224" "NewPass123" secGood "u1" []
    ⟨"d1", some secGood⟩ []
    rfl rfl (by decide) rfl (by decide) (by decide) rfl (by decide)
    (by decide) rfl rfl rfl (by decide) (by decide) rfl rfl

def verifyEnvFault : VerifyEnv :=
  ⟨ReqBody.valid ⟨some "user@example.com", some "755224", some "NewPass123"⟩,
   .ok ["u1"], .ok [⟨"d1", some "0000"⟩], .ok (), .ok (), 0⟩

def verifyEnvMismatch : VerifyEnv :=
  ⟨ReqBody.valid ⟨some "user@example.com", some "000000", some "NewPass123"⟩,
   .ok ["u1"], .ok [⟨"d1", some secGood⟩], .ok (), .ok (), 0⟩

/-- C7 fails on the code: a code mismatch and an engine-level
verification fault do NOT yield an identical response — at the concrete
inputs below both are 400 failures, but the messages differ (the
mismatch branch appends a request-a-new-OTP hint). -/
theorem verify_fault_vs_mismatch_counterexample :
    (verifyHandler verifyEnvFault).1.success =
      (verifyHandler verifyEnvMismatch).1.success ∧
    (verifyHandler verifyEnvFault).1.status =
      (verifyHandler verifyEnvMismatch).1.status ∧
    (verifyHandler verifyEnvFault).1.message ≠
      (verifyHandler verifyEnvMismatch).1.message := by
  decide

/-- C7 amended: a code mismatch and an engine-level verification fault
both yield a client error with the same success flag (`false`) and the
same status (400), but not the same message: the fault branch answers
`Invalid OTP or OTP has expired` while the mismatch branch appends
`. Please request a new OTP.`, so the two cases are distinguishable by
message text. -/
theorem verify_fault_vs_mismatch
    (env env2 : VerifyEnv) (p p2 : VerifyPayload)
    (e e2 o o2 pw pw2 s s2 : String) (uid uid2 : String)
    (us us2 : List String) (doc doc2 : Doc) (ds ds2 : List Doc)
    (hp : parseVerify env.body = .ok p)
    (he : p.email = some e) (hne : e.isEmpty = false)
    (ho : p.otp = some o) (hone : o.isEmpty = false)
    (hsix : isSixDigits o = true)
    (hpw : p.newPassword = some pw) (hpwne : pw.isEmpty = false)
    (hlen : ¬ pw.length < 8)
    (hu : env.users = .ok (uid :: us)) (hd : env.docs = .ok (doc :: ds))
    (hsec : doc.passwordResetSecret = some s) (hsne : s.isEmpty = false)
    (hm : matchesTotp s o env.time = none)
    (hp2 : parseVerify env2.body = .ok p2)
    (he2 : p2.email = some e2) (hne2 : e2.isEmpty = false)
    (ho2 : p2.otp = some o2) (hone2 : o2.isEmpty = false)
    (hsix2 : isSixDigits o2 = true)
    (hpw2 : p2.newPassword = some pw2) (hpwne2 : pw2.isEmpty = false)
    (hlen2 : ¬ pw2.length < 8)
    (hu2 : env2.users = .ok (uid2 :: us2))
    (hd2 : env2.docs = .ok (doc2 :: ds2))
    (hsec2 : doc2.passwordResetSecret = some s2) (hsne2 : s2.isEmpty = false)
    (hm2 : matchesTotp s2 o2 env2.time = some false) :
    (verifyHandler env).1 = failResp 400 "Invalid OTP or OTP has expired" ∧
    (verifyHandler env2).1 =
      failResp 400
        "Invalid OTP or OTP has expired. Please request a new OTP." ∧
    (verifyHandler env).1.success = (verifyHandler env2).1.success ∧
    (verifyHandler env).1.status = (verifyHandler env2).1.status ∧
    (verifyHandler env).1.message ≠ (verifyHandler env2).1.message := by
  have h1 : (verifyHandler env).1 =
      failResp 400 "Invalid OTP or OTP has expired" := by
    simp [verifyHandler, hp, he, hne, ho, hone, hsix, hpw, hpwne, hlen, hu,
      hd, hsec, hsne, hm, jsFalsy]
  have h2 : (verifyHandler env2).1 =
      failResp 400
        "Invalid OTP or OTP has expired. Please request a new OTP." := by
    simp [verifyHandler, hp2, he2, hne2, ho2, hone2, hsix2, hpw2, hpwne2,
      hlen2, hu2, hd2, hsec2, hsne2, hm2, jsFalsy]
  refine ⟨h1, h2, ?_, ?_, ?_⟩ <;> rw [h1, h2] <;> decide

theorem verify_fault_vs_mismatch_witness :
    (verifyHandler verifyEnvFault).1 =
      failResp 400 "Invalid OTP or OTP has expired" ∧
    (verifyHandler verifyEnvMismatch).1 =
      failResp 400
        "Invalid OTP or OTP has expired. Please request a new OTP." ∧
    (verifyHandler verifyEnvFault).1.success =
      (verifyHandler verifyEnvMismatch).1.success ∧
    (verifyHandler verifyEnvFault).1.status =
      (verifyHandler verifyEnvMismatch).1.status ∧
    (verifyHandler verifyEnvFault).1.message ≠
      (verifyHandler verifyEnvMismatch).1.message :=
  verify_fault_vs_mismatch verifyEnvFault verifyEnvMismatch _ _
    "user@example.com" "user@example.com" "755224" "000000"
    "NewPass123" "NewPass123" "0000" secGood "u1" "u1" [] []
    ⟨"d1", some "0000"⟩ ⟨"d1", some secGood⟩ [] []
    rfl rfl (by decide) rfl (by decide) (by decide) rfl (by decide)
    (by decide) rfl rfl rfl (by decide) (by decide)
    rfl rfl (by decide) rfl (by decide) (by decide) rfl (by decide)
    (by decide) rfl rfl rfl (by decide) (by decide)

/-- The trace of an issuance run that reuses an existing non-empty
secret: lookup, fetch, and the mail hand-off with the code of the
current window — in particular no secret-store write. -/
theorem send_reuse_trace (env : SendEnv) (p : SendPayload) (e s : String)
    (uid : String) (us : List String) (doc : Doc) (ds : List Doc)
    (key : List Nat)
    (hp : parseSend env.body = .ok p) (he : p.email = some e)
    (hne : e.isEmpty = false) (hre : emailRegexTest e = true)
    (hu : env.users = .ok (uid :: us)) (hd : env.docs = .ok (doc :: ds))
    (hs : doc.passwordResetSecret = some s) (hsne : s.isEmpty = false)
    (hkey : b32Decode s = some key) :
    (sendHandler env).2 =
      [Event.userLookup e, Event.docsFetch uid,
       Event.mailSend e (hotp key (totpCounter env.time))] := by
  cases hmail : env.mailResult <;>
    simp [sendHandler, sendAfterSecret, deriveTotp, hp, he, hne, hre, hu,
      hd, hs, hsne, hkey, hmail, jsFalsy]

/-- C4: issuance is idempotent on the secret — for a user whose stored
secret is present and non-empty, each run performs no secret-store
write, and two runs whose timestamps fall in the same 600-second window
hand the mailer the same derived code. -/
theorem send_issuance_idempotent
    (env env2 : SendEnv) (p p2 : SendPayload) (e e2 s : String)
    (uid uid2 : String) (us us2 : List String) (doc doc2 : Doc)
    (ds ds2 : List Doc) (key : List Nat)
    (hp : parseSend env.body = .ok p) (he : p.email = some e)
    (hne : e.isEmpty = false) (hre : emailRegexTest e = true)
    (hu : env.users = .ok (uid :: us)) (hd : env.docs = .ok (doc :: ds))
    (hs : doc.passwordResetSecret = some s) (hsne : s.isEmpty = false)
    (hp2 : parseSend env2.body = .ok p2) (he2 : p2.email = some e2)
    (hne2 : e2.isEmpty = false) (hre2 : emailRegexTest e2 = true)
    (hu2 : env2.users = .ok (uid2 :: us2))
    (hd2 : env2.docs = .ok (doc2 :: ds2))
    (hs2 : doc2.passwordResetSecret = some s)
    (hkey : b32Decode s = some key)
    (hw : totpCounter env.time = totpCounter env2.time) :
    writesOf (sendHandler env).2 = [] ∧
    writesOf (sendHandler env2).2 = [] ∧
    sentOtps (sendHandler env).2 = [hotp key (totpCounter env.time)] ∧
    sentOtps (sendHandler env2).2 = sentOtps (sendHandler env).2 := by
  have t1 := send_reuse_trace env p e s uid us doc ds key
    hp he hne hre hu hd hs hsne hkey
  have t2 := send_reuse_trace env2 p2 e2 s uid2 us2 doc2 ds2 key
    hp2 he2 hne2 hre2 hu2 hd2 hs2 hsne hkey
  rw [t1, t2, hw]
  exact ⟨rfl, rfl, rfl, rfl⟩

def sendEnvReuse : SendEnv :=
  ⟨ReqBody.valid ⟨some "user@example.com"⟩, .ok ["u1"],
   .ok [⟨"d1", some secGood⟩], "FRESH", .ok (), .ok (), 0⟩

def sendEnvReuse2 : SendEnv :=
  ⟨ReqBody.valid ⟨some "user@example.com"⟩, .ok ["u1"],
   .ok [⟨"d1", some secGood⟩], "FRESH", .ok (), .ok (), 300⟩

theorem send_issuance_idempotent_witness :
    writesOf (sendHandler sendEnvReuse).2 = [] ∧
    writesOf (sendHandler sendEnvReuse2).2 = [] ∧
    sentOtps (sendHandler sendEnvReuse).2 =
      [hotp keyGood (totpCounter sendEnvReuse.time)] ∧
    sentOtps (sendHandler sendEnvReuse2).2 =
      sentOtps (sendHandler sendEnvReuse).2 :=
  send_issuance_idempotent sendEnvReuse sendEnvReuse2 _ _
    "user@example.com" "user@example.com" secGood "u1" "u1" [] []
    ⟨"d1", some secGood⟩ ⟨"d1", some secGood⟩ [] [] keyGood
    rfl rfl (by decide) (by decide) rfl rfl rfl (by decide)
    rfl rfl (by decide) (by decide) rfl rfl rfl
    (by decide) (by decide)

end FitSphere
